import Mathlib

/-!
Verification development for the Dark-Video-Factory process & filesystem
bridge (`src-tauri/src/lib.rs`).

The bridge is a set of stateless Tauri commands, each a thin wrapper over an
OS facility.  We embed each command as a pure Lean function, making the OS
interactions explicit parameters:

* spawning an external process is a function from a program name and an
  argument list to either a launch error (the `io::Error` display text) or a
  captured `Output`;
* the process exit status follows `std::process::ExitStatus` on Unix: the
  numeric code is absent when the process was terminated by a signal, and
  `success` holds exactly when the code is 0;
* captured stdout/stderr are modelled as the text obtained after the
  `String::from_utf8_lossy` conversion performed by the source;
* the filesystem is a finite map from paths (component lists) to byte
  contents together with a set of existing directories, and the `std::fs`
  primitives used by the source are given their documented semantics over
  that state, with OS error causes rendered as their Linux `io::Error`
  display strings;
* environment variables are a function from variable names to optional
  values, and platform conditionals (`cfg!(windows)`) are a boolean
  parameter.
-/

/-- Exit status of a finished process, following `std::process::ExitStatus`
on Unix: `code` is the exit code when the process terminated normally and
`none` when it was terminated by a signal. -/
structure ExitStatus where
  code : Option Int
  deriving DecidableEq

/-- `ExitStatus::success()`: termination was successful, i.e. the exit code
is the normal-termination value 0. -/
def ExitStatus.success (s : ExitStatus) : Bool :=
  s.code == some 0

/-- Captured output of a finished process (`std::process::Output`), with
stdout and stderr already decoded to text as the source does with
`String::from_utf8_lossy`. -/
structure Output where
  status : ExitStatus
  stdout : String
  stderr : String
  deriving DecidableEq

/-- Result type returned by `run_ffmpeg` (struct `FfmpegResult` in the
source). -/
structure FfmpegResult where
  success : Bool
  stdout : String
  stderr : String
  exit_code : Option Int
  deriving DecidableEq

/-- Result type returned by `check_ffmpeg` (struct `FfmpegInfo` in the
source). -/
structure FfmpegInfo where
  installed : Bool
  version : String
  path : String
  deriving DecidableEq

/-- The outcome of `Command::new(prog).args(args).output()`: either the
captured `Output` of the launched process, or the display text of the
`io::Error` when the process could not be launched. -/
abbrev SpawnEnv := String → List String → Except String Output

/-- `run_ffmpeg(args)` from the source: spawn `ffmpeg` with the given
arguments and capture the outcome inside an `FfmpegResult`; a launch failure
is reported inside the result, never as an error of the command itself. -/
def run_ffmpeg (spawn : SpawnEnv) (args : List String) : FfmpegResult :=
  match spawn "ffmpeg" args with
  | .ok output =>
      { success := output.status.success
        stdout := output.stdout
        stderr := output.stderr
        exit_code := output.status.code }
  | .error e =>
      { success := false
        stdout := ""
        stderr := "Failed to execute ffmpeg: " ++ e
        exit_code := none }

/-- The characters before the first newline. -/
def takeUntilNewline : List Char → List Char
  | [] => []
  | c :: rest => if c = '\n' then [] else c :: takeUntilNewline rest

/-- First element of Rust's `str::lines()` iterator: `none` on the empty
string, otherwise the text up to the first newline, with a trailing carriage
return removed. -/
def rustFirstLine (s : String) : Option String :=
  if s = "" then none
  else
    let l := takeUntilNewline s.data
    some (String.mk (if l.getLast? = some '\r' then l.dropLast else l))

/-- `check_ffmpeg()` from the source: run `ffmpeg -version`; on a successful
launch report whether it exited successfully, its first output line as the
version (or "unknown" when there is none), and a best-effort `which`/`where`
lookup of the executable path; on a launch failure report the tool as not
installed with empty version and path. -/
def check_ffmpeg (isWindows : Bool) (spawn : SpawnEnv) : FfmpegInfo :=
  match spawn "ffmpeg" ["-version"] with
  | .ok output =>
      let out := output.stdout
      let version_line := (rustFirstLine out).getD "unknown"
      let path :=
        if isWindows then
          match spawn "where" ["ffmpeg"] with
          | .ok o => o.stdout.trim
          | .error _ => ""
        else
          match spawn "which" ["ffmpeg"] with
          | .ok o => o.stdout.trim
          | .error _ => ""
      { installed := output.status.success
        version := version_line
        path := path }
  | .error _ =>
      { installed := false
        version := ""
        path := "" }

/-- A filesystem path, modelled structurally as its list of components
(the source passes paths as strings; `Path::parent` on such a path drops
the final component). -/
abbrev FsPath := List String

/-- File contents: a byte sequence. -/
abbrev Bytes := List Nat

/-- Rendering of a component path back to the string form used in the
source's error messages (Unix separator). -/
def pathStr (p : FsPath) : String :=
  String.intercalate "/" p

/-- `Path::new(&path).parent()`: `none` for the empty path, otherwise the
path without its final component. -/
def pathParent (p : FsPath) : Option FsPath :=
  if p = [] then none else some p.dropLast

/-- The nonempty prefixes of a path, shortest first: the chain of
directories `create_dir_all` must produce. -/
def nonNilPrefixes : FsPath → List FsPath
  | [] => []
  | c :: rest => [c] :: (nonNilPrefixes rest).map (fun q => c :: q)

/-- Filesystem state: the regular files with their contents, and the set of
existing directories. -/
structure FS where
  files : List (FsPath × Bytes)
  dirs : List FsPath
  deriving DecidableEq

/-- Look up the contents of a file in the file table. -/
def findFile : List (FsPath × Bytes) → FsPath → Option Bytes
  | [], _ => none
  | (q, c) :: rest, p => if q = p then some c else findFile rest p

/-- The path names an existing regular file. -/
def FS.isFile (fs : FS) (p : FsPath) : Bool :=
  (findFile fs.files p).isSome

/-- The path names an existing directory. -/
def FS.isDir (fs : FS) (p : FsPath) : Bool :=
  decide (p ∈ fs.dirs)

/-- `Path::new(&path).exists()`: the path names an existing file or
directory. -/
def FS.existsPath (fs : FS) (p : FsPath) : Bool :=
  fs.isFile p || fs.isDir p

/-- Well-formedness of a filesystem state: no path is simultaneously a
regular file and a directory (true of every state a real filesystem can
reach). -/
def FS.wf (fs : FS) : Bool :=
  fs.files.all (fun kv => !fs.isDir kv.1)

/-- `std::fs::create_dir_all(d)`: create every missing ancestor directory
of `d`; fails when some component already exists as a regular file (Linux
`io::Error` display text), succeeds as a no-op on the empty path. -/
def create_dir_all (fs : FS) (d : FsPath) : Except String FS :=
  if (nonNilPrefixes d).any fs.isFile then
    .error "File exists (os error 17)"
  else
    .ok { fs with dirs := fs.dirs ++ nonNilPrefixes d }

/-- Replace the contents of file `p` with `c`, creating the entry if
absent. -/
def setFile (fs : FS) (p : FsPath) (c : Bytes) : FS :=
  { fs with files := (p, c) :: fs.files.filter (fun kv => decide (kv.1 ≠ p)) }

/-- `File::create(&path)`: create or truncate the file at `path`; fails on
the empty path, on a path naming a directory, or when the parent directory
does not exist. -/
def fileCreate (fs : FS) (p : FsPath) : Except String FS :=
  if p = [] then .error "No such file or directory (os error 2)"
  else if fs.isDir p then .error "Is a directory (os error 21)"
  else if p.dropLast ≠ [] ∧ fs.isDir p.dropLast = false then
    .error "No such file or directory (os error 2)"
  else .ok (setFile fs p [])

/-- `file.write_all(&content)`: store the full contents (an ideal disk;
out-of-space failures are not modelled). -/
def writeAll (fs : FS) (p : FsPath) (c : Bytes) : Except String FS :=
  .ok (setFile fs p c)

/-- `write_file(path, content)` from the source: create the missing parent
directories, create/truncate the file, write the content; each underlying
failure is propagated as the bare `io::Error` display text
(`.map_err(|e| e.to_string())`). -/
def write_file (fs : FS) (path : FsPath) (content : Bytes) : Except String FS :=
  let step1 : Except String FS :=
    match pathParent path with
    | some par => create_dir_all fs par
    | none => .ok fs
  match step1 with
  | .error e => .error e
  | .ok fs1 =>
      match fileCreate fs1 path with
      | .error e => .error e
      | .ok fs2 => writeAll fs2 path content

/-- `read_file(path)` from the source: return the file's bytes, or an error
message carrying the path and the underlying cause. -/
def read_file (fs : FS) (path : FsPath) : Except String Bytes :=
  match findFile fs.files path with
  | some c => .ok c
  | none =>
      let cause :=
        if fs.isDir path then "Is a directory (os error 21)"
        else "No such file or directory (os error 2)"
      .error ("Failed to read file '" ++ pathStr path ++ "': " ++ cause)

/-- `std::fs::remove_file(&path)` restricted to the existing-path case in
which the source calls it: succeeds on a regular file, fails when the path
is a directory. -/
def removeFile (fs : FS) (p : FsPath) : Except String FS :=
  if fs.isFile p then
    .ok { fs with files := fs.files.filter (fun kv => decide (kv.1 ≠ p)) }
  else .error "Is a directory (os error 21)"

/-- `delete_file_cmd(path)` from the source: a no-op success when the path
does not exist, otherwise remove it, wrapping a failure cause together with
the path. -/
def delete_file_cmd (fs : FS) (path : FsPath) : Except String FS :=
  if fs.existsPath path then
    match removeFile fs path with
    | .ok fs2 => .ok fs2
    | .error e => .error ("Failed to delete '" ++ pathStr path ++ "': " ++ e)
  else .ok fs

/-- The OS `io::Error` display texts the modelled `std::fs` primitives can
produce. -/
def osCauses : List String :=
  ["No such file or directory (os error 2)",
   "Is a directory (os error 21)",
   "File exists (os error 17)"]

/-- A spawn environment in which the launched process is terminated by a
signal: the launch succeeds but the exit status carries no code. -/
def spawnSignalled : SpawnEnv :=
  fun _ _ => .ok { status := { code := none }, stdout := "", stderr := "" }

/-- A spawn environment in which every launch fails, as when the executable
is not on the search path. -/
def spawnMissing : SpawnEnv :=
  fun _ _ => .error "No such file or directory (os error 2)"

/-- A spawn environment in which `ffmpeg -version` succeeds with a two-line
version banner and the path lookup fails. -/
def spawnBanner : SpawnEnv :=
  fun prog _ =>
    if prog = "ffmpeg" then
      .ok { status := { code := some 0 }
            stdout := "ffmpeg version 6.0\nbuilt with gcc 13"
            stderr := "" }
    else .error "No such file or directory (os error 2)"

/-- The environment variable the source reads for the home directory:
`USERPROFILE` on Windows, `HOME` elsewhere. -/
def homeVar (isWindows : Bool) : String :=
  if isWindows then "USERPROFILE" else "HOME"

/-- The path separator the source inserts: a backslash on Windows, a slash
elsewhere. -/
def pathSep (isWindows : Bool) : String :=
  if isWindows then "\\" else "/"

/-- `PathBuf::join` on a relative component, rendered back to a string as
`to_string_lossy` does: append the component, inserting the platform
separator unless the base is empty or already ends with it. -/
def pathJoin (isWindows : Bool) (base comp : String) : String :=
  if base = "" then comp
  else if base.endsWith (pathSep isWindows) then base ++ comp
  else base ++ pathSep isWindows ++ comp

/-- `get_temp_dir()` from the source: the OS temp root (`env::temp_dir()`,
a parameter here) joined with the fixed application folder. -/
def get_temp_dir (isWindows : Bool) (osTempDir : String) : String :=
  pathJoin isWindows osTempDir "DarkVideoFactory"

/-- The process environment: variable name to optional value
(`std::env::var` succeeds exactly on the `some` values;
`.unwrap_or_default()` turns `none` into `""`). -/
abbrev EnvVars := String → Option String

/-- `get_downloads_dir()` from the source: home directory from the
environment with `Downloads` appended, falling back to `get_temp_dir()`
when the home variable is unset or empty. -/
def get_downloads_dir (isWindows : Bool) (env : EnvVars) (osTempDir : String) : String :=
  let home := (env (homeVar isWindows)).getD ""
  if home = "" then get_temp_dir isWindows osTempDir
  else home ++ pathSep isWindows ++ "Downloads"

/-- The JSON object returned by `get_system_info`, as a record with its
three fields. -/
structure SystemInfo where
  os : String
  arch : String
  cpus : Nat
  deriving DecidableEq

/-- `get_system_info()` from the source: compile-time OS and architecture
identifiers, and `thread::available_parallelism()` — a `NonZeroUsize` when
it succeeds, hence the positive subtype — defaulting to 1 on failure. -/
def get_system_info (os arch : String) (avail : Option { n : Nat // 0 < n }) : SystemInfo :=
  { os := os
    arch := arch
    cpus := (avail.map Subtype.val).getD 1 }

/-- An environment in which `HOME` is set to a nonempty path. -/
def envWithHome : EnvVars :=
  fun v => if v = "HOME" then some "/home/user" else none

/-- An environment in which `HOME` is set to the empty string. -/
def envEmptyHome : EnvVars :=
  fun v => if v = "HOME" then some "" else none

/-- An environment with no variables set. -/
def envUnset : EnvVars :=
  fun _ => none

/-- A filesystem in which `a` is a regular file, so that creating
directories underneath it must fail. -/
def fsFileA : FS :=
  { files := [(["a"], [])], dirs := [] }

/-- The empty filesystem. -/
def fsEmpty : FS :=
  { files := [], dirs := [] }

/-- A filesystem holding the single file `t`. -/
def fsFileT : FS :=
  { files := [(["t"], [0])], dirs := [] }

/-- The filesystem produced by writing `a/b/c.bin` with four bytes into the
empty filesystem. -/
def fsAfterWrite : FS :=
  { files := [(["a", "b", "c.bin"], [0xDE, 0xAD, 0xBE, 0xEF])]
    dirs := [["a"], ["a", "b"]] }

/-- A string with a nonempty second summand is nonempty. -/
theorem append_ne_empty_right (a b : String) (hb : b ≠ "") : a ++ b ≠ "" := by
  intro h
  apply hb
  have hd : (a ++ b).data = [] := congrArg String.data h
  rw [String.data_append] at hd
  obtain ⟨-, hbd⟩ := List.append_eq_nil.mp hd
  cases b with
  | mk d =>
    cases hbd
    rfl

/-- C1 (counterexample): a process that launches but is terminated by a
signal yields a result whose `exit_code` is absent even though the process
could be launched, contradicting the claim that `exit_code` is present
whenever the launch succeeded. -/
theorem run_ffmpeg_exit_code_counterexample :
    (spawnSignalled "ffmpeg" ["-i", "in.mp4"]).isOk = true ∧
    (run_ffmpeg spawnSignalled ["-i", "in.mp4"]).exit_code = none :=
  ⟨rfl, rfl⟩

/-- C1 (amended): for every argument list, `exit_code` is absent when the
process could not be launched and otherwise equals the OS-reported status
code (itself absent when the process did not terminate normally, e.g. was
killed by a signal); `success` is true iff `exit_code` equals the
normal-termination value 0. -/
theorem run_ffmpeg_exit_code_amended (spawn : SpawnEnv) (args : List String) :
    (run_ffmpeg spawn args).exit_code =
      (match spawn "ffmpeg" args with
       | .ok o => o.status.code
       | .error _ => none) ∧
    ((run_ffmpeg spawn args).success = true ↔
      (run_ffmpeg spawn args).exit_code = some 0) := by
  unfold run_ffmpeg
  cases h : spawn "ffmpeg" args with
  | ok o => simp [ExitStatus.success]
  | error e => simp

/-- C4: when the spawn fails, `run_ffmpeg` still returns a `ProcessResult`
(never a bridge-level error): `success` is false, `exit_code` is absent,
stdout is empty, and stderr carries the human-readable cause. -/
theorem run_ffmpeg_launch_failure (spawn : SpawnEnv) (args : List String) (e : String)
    (h : spawn "ffmpeg" args = .error e) :
    run_ffmpeg spawn args =
      { success := false
        stdout := ""
        stderr := "Failed to execute ffmpeg: " ++ e
        exit_code := none } := by
  unfold run_ffmpeg
  rw [h]

/-- C4 (witness): concrete launch failure. -/
theorem run_ffmpeg_launch_failure_witness :
    run_ffmpeg spawnMissing ["-version"] =
      { success := false
        stdout := ""
        stderr := "Failed to execute ffmpeg: No such file or directory (os error 2)"
        exit_code := none } :=
  run_ffmpeg_launch_failure spawnMissing ["-version"]
    "No such file or directory (os error 2)" rfl

/-- C6: when launching `ffmpeg -version` fails, `check_ffmpeg` returns
`installed = false` with empty version and path, and never raises an
error. -/
theorem check_ffmpeg_launch_failure (isWindows : Bool) (spawn : SpawnEnv) (e : String)
    (h : spawn "ffmpeg" ["-version"] = .error e) :
    check_ffmpeg isWindows spawn = { installed := false, version := "", path := "" } := by
  unfold check_ffmpeg
  rw [h]

/-- C6 (witness): concrete missing tool. -/
theorem check_ffmpeg_launch_failure_witness :
    check_ffmpeg false spawnMissing = { installed := false, version := "", path := "" } :=
  check_ffmpeg_launch_failure false spawnMissing
    "No such file or directory (os error 2)" rfl

/-- C9: when the tool launches, the reported version is the first line of
its standard output, and the sentinel "unknown" exactly when that output is
empty. -/
theorem check_ffmpeg_version_first_line (isWindows : Bool) (spawn : SpawnEnv) (o : Output)
    (h : spawn "ffmpeg" ["-version"] = .ok o) :
    (o.stdout = "" → (check_ffmpeg isWindows spawn).version = "unknown") ∧
    (∀ l, rustFirstLine o.stdout = some l → (check_ffmpeg isWindows spawn).version = l) := by
  unfold check_ffmpeg
  rw [h]
  constructor
  · intro he
    simp [rustFirstLine, he]
  · intro l hl
    simp [hl]

/-- C9 (witness): a two-line version banner yields its first line. -/
theorem check_ffmpeg_version_first_line_witness :
    (check_ffmpeg false spawnBanner).version = "ffmpeg version 6.0" :=
  (check_ffmpeg_version_first_line false spawnBanner
      { status := { code := some 0 }
        stdout := "ffmpeg version 6.0\nbuilt with gcc 13"
        stderr := "" }
      rfl).2 "ffmpeg version 6.0" rfl

/-- C7: `get_downloads_dir` always returns a nonempty path; when the home
variable resolves to a nonempty value it is that home joined with
"Downloads" by the platform separator, otherwise exactly
`get_temp_dir()`'s result. -/
theorem get_downloads_dir_spec (isWindows : Bool) (env : EnvVars) (osTempDir : String) :
    get_downloads_dir isWindows env osTempDir ≠ "" ∧
    ((env (homeVar isWindows)).getD "" ≠ "" →
      get_downloads_dir isWindows env osTempDir =
        (env (homeVar isWindows)).getD "" ++ pathSep isWindows ++ "Downloads") ∧
    ((env (homeVar isWindows)).getD "" = "" →
      get_downloads_dir isWindows env osTempDir = get_temp_dir isWindows osTempDir) := by
  refine ⟨?_, ?_, ?_⟩
  · unfold get_downloads_dir
    by_cases hh : (env (homeVar isWindows)).getD "" = ""
    · simp only [hh, if_pos rfl]
      unfold get_temp_dir pathJoin
      by_cases hb : osTempDir = ""
      · simp [hb]
      · by_cases he : osTempDir.endsWith (pathSep isWindows)
        · simp only [if_neg hb, if_pos he]
          exact append_ne_empty_right _ _ (by decide)
        · simp only [if_neg hb, if_neg he]
          exact append_ne_empty_right _ _ (by decide)
    · simp only [if_neg hh]
      exact append_ne_empty_right _ _ (by decide)
  · intro hh
    unfold get_downloads_dir
    simp [hh]
  · intro hh
    unfold get_downloads_dir
    simp [hh]

/-- C7 (witness): with `HOME=/home/user`, the downloads directory is
`/home/user/Downloads`. -/
theorem get_downloads_dir_spec_witness :
    get_downloads_dir false envWithHome "/tmp" = "/home/user/Downloads" :=
  ((get_downloads_dir_spec false envWithHome "/tmp").2.1 (by decide)).trans rfl

/-- C10: a home variable set to the empty string behaves exactly like an
unset one: both fall back to `get_temp_dir()`'s result. -/
theorem get_downloads_dir_empty_home (isWindows : Bool) (osTempDir : String)
    (env envU : EnvVars)
    (h : env (homeVar isWindows) = some "") (hU : envU (homeVar isWindows) = none) :
    get_downloads_dir isWindows env osTempDir = get_temp_dir isWindows osTempDir ∧
    get_downloads_dir isWindows envU osTempDir = get_temp_dir isWindows osTempDir := by
  constructor
  · unfold get_downloads_dir
    simp [h]
  · unfold get_downloads_dir
    simp [hU]

/-- C10 (witness): `HOME=""` and `HOME` unset both give the temp-dir
fallback. -/
theorem get_downloads_dir_empty_home_witness :
    get_downloads_dir false envEmptyHome "/tmp" = get_temp_dir false "/tmp" ∧
    get_downloads_dir false envUnset "/tmp" = get_temp_dir false "/tmp" :=
  get_downloads_dir_empty_home false "/tmp" envEmptyHome envUnset rfl rfl

/-- C8: the logical CPU count reported by `get_system_info` is always at
least 1, and is exactly 1 when the parallelism query fails. -/
theorem get_system_info_cpus (os arch : String) (avail : Option { n : Nat // 0 < n }) :
    1 ≤ (get_system_info os arch avail).cpus ∧
    (avail = none → (get_system_info os arch avail).cpus = 1) := by
  constructor
  · cases avail with
    | none => simp [get_system_info]
    | some n => simpa [get_system_info] using n.2
  · intro h
    subst h
    rfl

/-- C8 (witness): a failed parallelism query reports exactly 1 CPU. -/
theorem get_system_info_cpus_witness :
    (get_system_info "linux" "x86_64" none).cpus = 1 :=
  (get_system_info_cpus "linux" "x86_64" none).2 rfl

/-- Removing the entries at `p` from the file table makes lookup of `p`
fail. -/
theorem findFile_filter_ne (l : List (FsPath × Bytes)) (p : FsPath) :
    findFile (l.filter (fun kv => !decide (kv.1 = p))) p = none := by
  induction l with
  | nil => rfl
  | cons kv rest ih =>
    obtain ⟨q, c⟩ := kv
    by_cases hq : q = p
    · simpa [List.filter_cons, hq] using ih
    · simpa [List.filter_cons, hq, findFile] using ih

/-- A successful lookup comes from an entry of the file table. -/
theorem findFile_mem (l : List (FsPath × Bytes)) (p : FsPath) (c : Bytes)
    (h : findFile l p = some c) : (p, c) ∈ l := by
  induction l with
  | nil => simp [findFile] at h
  | cons kv rest ih =>
    obtain ⟨q, c2⟩ := kv
    by_cases hq : q = p
    · subst hq
      simp [findFile] at h
      subst h
      exact List.mem_cons_self _ _
    · simp [findFile, hq] at h
      exact List.mem_cons_of_mem _ (ih h)

/-- A nonempty path is one of its own nonempty prefixes. -/
theorem mem_nonNilPrefixes_self (p : FsPath) (h : p ≠ []) : p ∈ nonNilPrefixes p := by
  induction p with
  | nil => exact absurd rfl h
  | cons c rest ih =>
    cases rest with
    | nil => simp [nonNilPrefixes]
    | cons d tail =>
      have hmem := ih (by simp)
      unfold nonNilPrefixes
      exact List.mem_cons_of_mem _ (List.mem_map_of_mem _ hmem)

/-- A successful `create_dir_all` adds exactly the prefix chain to the
directory set. -/
theorem create_dir_all_ok (fs fs1 : FS) (d : FsPath)
    (h : create_dir_all fs d = .ok fs1) :
    fs1 = { fs with dirs := fs.dirs ++ nonNilPrefixes d } := by
  unfold create_dir_all at h
  split at h
  · exact absurd h (by simp)
  · simpa using h.symm

/-- A successful `fileCreate` truncates the file at `p`. -/
theorem fileCreate_ok (fs fs2 : FS) (p : FsPath) (h : fileCreate fs p = .ok fs2) :
    fs2 = setFile fs p [] := by
  unfold fileCreate at h
  split at h
  · exact absurd h (by simp)
  · split at h
    · exact absurd h (by simp)
    · split at h
      · exact absurd h (by simp)
      · simpa using h.symm

/-- In a well-formed filesystem a regular file is not a directory. -/
theorem wf_isFile_isDir (fs : FS) (p : FsPath) (hwf : fs.wf = true)
    (hf : fs.isFile p = true) : fs.isDir p = false := by
  unfold FS.isFile at hf
  obtain ⟨c, hc⟩ := Option.isSome_iff_exists.mp hf
  have hmem := findFile_mem fs.files p c hc
  have := List.all_eq_true.mp hwf ⟨p, c⟩ hmem
  simpa using this

/-- C2: a successful `write_file` is immediately readable back with exactly
the bytes that were written, and every intermediate directory of the path
exists afterwards. -/
theorem write_file_read_file_roundtrip (fs : FS) (path : FsPath) (content : Bytes) (fs2 : FS)
    (h : write_file fs path content = .ok fs2) :
    read_file fs2 path = .ok content ∧
    ∀ d, d ∈ nonNilPrefixes path.dropLast → fs2.isDir d = true := by
  unfold write_file at h
  by_cases hp : path = []
  · subst hp
    simp [pathParent, fileCreate] at h
  · simp only [pathParent, if_neg hp] at h
    cases hcd : create_dir_all fs path.dropLast with
    | error e => rw [hcd] at h; simp at h
    | ok fs1 =>
      rw [hcd] at h
      simp only [] at h
      cases hfc : fileCreate fs1 path with
      | error e => rw [hfc] at h; simp at h
      | ok fsc =>
        rw [hfc] at h
        simp [writeAll] at h
        have hdirs1 := create_dir_all_ok fs fs1 path.dropLast hcd
        have hdirsc := fileCreate_ok fs1 fsc path hfc
        constructor
        · simp [← h, read_file, setFile, findFile]
        · intro d hd
          have : fs2.dirs = fs.dirs ++ nonNilPrefixes path.dropLast := by
            rw [← h, hdirsc, hdirs1]
            rfl
          simp [FS.isDir, this]
          exact Or.inr hd

/-- C2 (witness): the spec scenario, writing `a/b/c.bin` with four bytes
into the empty filesystem and reading it back. -/
theorem write_file_read_file_roundtrip_witness :
    read_file fsAfterWrite ["a", "b", "c.bin"] = .ok [0xDE, 0xAD, 0xBE, 0xEF] :=
  (write_file_read_file_roundtrip fsEmpty ["a", "b", "c.bin"] [0xDE, 0xAD, 0xBE, 0xEF]
      fsAfterWrite rfl).1

/-- C3: `delete_file_cmd` succeeds as a no-op on a missing path, and a
second call right after a successful call never fails. -/
theorem delete_file_cmd_idempotent (fs : FS) (p : FsPath) (hwf : fs.wf = true) :
    (fs.existsPath p = false → delete_file_cmd fs p = .ok fs) ∧
    (∀ fs2, delete_file_cmd fs p = .ok fs2 → delete_file_cmd fs2 p = .ok fs2) := by
  constructor
  · intro hne
    simp [delete_file_cmd, hne]
  · intro fs2 h
    by_cases hex : fs.existsPath p = true
    · by_cases hf : fs.isFile p = true
      · simp [delete_file_cmd, hex, removeFile, hf] at h
        have hnf : fs2.isFile p = false := by
          rw [← h]
          simp only [FS.isFile, findFile_filter_ne, Option.isSome_none]
        have hnd : fs2.isDir p = false := by
          have := wf_isFile_isDir fs p hwf hf
          rw [← h]
          simpa [FS.isDir] using this
        simp [delete_file_cmd, FS.existsPath, hnf, hnd]
      · simp [delete_file_cmd, hex, removeFile, hf] at h
    · simp [delete_file_cmd, hex] at h
      simp [delete_file_cmd, hex, ← h]

/-- C3 (witness): deleting the only file and deleting it again. -/
theorem delete_file_cmd_idempotent_witness :
    delete_file_cmd fsEmpty ["t"] = .ok fsEmpty :=
  (delete_file_cmd_idempotent fsFileT ["t"] rfl).2 fsEmpty rfl

/-- C5 (counterexample): `write_file` on a path whose first component is an
existing regular file fails with the bare OS cause, and that message does
not contain the offending path, contradicting the claim that every file
operation's failure message includes the path. -/
theorem file_error_message_counterexample :
    write_file fsFileA ["a", "b"] [] = .error "File exists (os error 17)" ∧
    ¬ (pathStr ["a", "b"]).data <:+: ("File exists (os error 17)").data :=
  ⟨rfl, by decide⟩

/-- C5 (amended): `read_file` and `delete_file_cmd` failures carry a
message containing both the offending path and the underlying OS cause;
`write_file` failures carry only the underlying OS cause text. -/
theorem file_error_messages_amended (fs : FS) (p : FsPath) :
    (∀ m, read_file fs p = .error m →
      ((pathStr p).data <:+: m.data ∧ ∃ c ∈ osCauses, c.data <:+: m.data)) ∧
    (∀ m, delete_file_cmd fs p = .error m →
      ((pathStr p).data <:+: m.data ∧ ∃ c ∈ osCauses, c.data <:+: m.data)) ∧
    (∀ content m, write_file fs p content = .error m → m ∈ osCauses) := by
  refine ⟨?_, ?_, ?_⟩
  · intro m hm
    unfold read_file at hm
    cases hff : findFile fs.files p with
    | some c => rw [hff] at hm; simp at hm
    | none =>
      rw [hff] at hm
      simp only [Except.error.injEq] at hm
      subst hm
      constructor
      · exact ⟨"Failed to read file '".data, "': ".data ++
          (if fs.isDir p then "Is a directory (os error 21)"
           else "No such file or directory (os error 2)").data,
          by simp [String.data_append]⟩
      · by_cases hd : fs.isDir p = true
        · refine ⟨"Is a directory (os error 21)", by simp [osCauses], ?_⟩
          refine ⟨("Failed to read file '" ++ pathStr p ++ "': ").data, [], ?_⟩
          simp [hd, String.data_append]
        · have hd2 : fs.isDir p = false := by simpa using hd
          refine ⟨"No such file or directory (os error 2)", by simp [osCauses], ?_⟩
          refine ⟨("Failed to read file '" ++ pathStr p ++ "': ").data, [], ?_⟩
          simp [hd2, String.data_append]
  · intro m hm
    unfold delete_file_cmd at hm
    by_cases hex : fs.existsPath p = true
    · rw [if_pos hex] at hm
      unfold removeFile at hm
      by_cases hf : fs.isFile p = true
      · rw [if_pos hf] at hm
        simp at hm
      · rw [if_neg hf] at hm
        simp only [] at hm
        simp only [Except.error.injEq] at hm
        subst hm
        constructor
        · exact ⟨"Failed to delete '".data,
            "': ".data ++ "Is a directory (os error 21)".data,
            by simp [String.data_append]⟩
        · refine ⟨"Is a directory (os error 21)", by simp [osCauses], ?_⟩
          exact ⟨("Failed to delete '" ++ pathStr p ++ "': ").data, [],
            by simp [String.data_append]⟩
    · rw [if_neg hex] at hm
      simp at hm
  · intro content m hm
    unfold write_file at hm
    by_cases hp : p = []
    · subst hp
      rw [show pathParent ([] : FsPath) = none from rfl] at hm
      simp only [] at hm
      rw [show fileCreate fs ([] : FsPath) =
            .error "No such file or directory (os error 2)" from rfl] at hm
      simp only [] at hm
      simp only [Except.error.injEq] at hm
      subst hm
      simp [osCauses]
    · simp only [pathParent, if_neg hp] at hm
      cases hcd : create_dir_all fs p.dropLast with
      | error e =>
        rw [hcd] at hm
        simp only [] at hm
        unfold create_dir_all at hcd
        split at hcd
        · simp only [Except.error.injEq] at hcd hm
          subst hcd
          subst hm
          simp [osCauses]
        · simp at hcd
      | ok fs1 =>
        rw [hcd] at hm
        simp only [] at hm
        cases hfc : fileCreate fs1 p with
        | error e =>
          rw [hfc] at hm
          simp only [] at hm
          simp only [Except.error.injEq] at hm
          subst hm
          unfold fileCreate at hfc
          split at hfc
          · simp only [Except.error.injEq] at hfc
            subst hfc
            simp [osCauses]
          · split at hfc
            · simp only [Except.error.injEq] at hfc
              subst hfc
              simp [osCauses]
            · split at hfc
              · simp only [Except.error.injEq] at hfc
                subst hfc
                simp [osCauses]
              · simp at hfc
        | ok fsc =>
          rw [hfc] at hm
          simp [writeAll] at hm

/-- C5 (amended, witness): reading a missing file produces a message
containing the path. -/
theorem file_error_messages_amended_witness :
    (pathStr ["nofile"]).data <:+:
      ("Failed to read file 'nofile': No such file or directory (os error 2)").data :=
  ((file_error_messages_amended fsEmpty ["nofile"]).1
    "Failed to read file 'nofile': No such file or directory (os error 2)" rfl).1
